import Mathlib

/-!
Verification of the LangGraph support-workflow scripts in
`task4_langgraph_workflow` (`support_workflow.py`, `hf_workflow.py`).

The stages and the mock executor of `support_workflow.py` are embedded as
pure Lean functions over a record mirroring `SupportWorkflowState`.
Python's salted built-in `hash` is modelled as an explicit parameter
`pyhash : String → Nat` (within one process it is a fixed deterministic
function); `hash(m) % 10000` becomes `pyhash m % 10000`.
-/

/-- Substring test on character lists: does `pat` occur inside the list?
Mirrors Python's `pat in hay` for strings. -/
def listContainsSub (pat : List Char) : List Char → Bool
  | [] => pat.isEmpty
  | c :: rest => pat.isPrefixOf (c :: rest) || listContainsSub pat rest

/-- Python's `pat in s` substring containment. -/
def strContains (s pat : String) : Bool :=
  listContainsSub pat.toList s.toList

/-- Python's `any(word in message for word in words)`. -/
def anyWordIn (message : String) (words : List String) : Bool :=
  words.any (fun w => strContains message w)

/-- Python's `str.lower()` (ASCII case mapping, as used by the scripts). -/
def pyLower (s : String) : String :=
  String.mk (s.toList.map Char.toLower)

/-- Python's `str.strip()`: drop whitespace at both ends. -/
def pyStrip (s : String) : String :=
  String.mk (((s.toList.dropWhile fun c => c.isWhitespace).reverse.dropWhile
      fun c => c.isWhitespace).reverse)

/-- Truthiness of an `Optional[str]`: `None` and `""` are falsy. -/
def optStrTruthy : Option String → Bool
  | some s => decide (s ≠ "")
  | none => false

/-- Python's `opt or default` for an `Optional[str]` value. -/
def pyOrDefault (o : Option String) (d : String) : String :=
  match o with
  | some s => if s = "" then d else s
  | none => d

/-- Interpolation of an `Optional[str]` into an f-string. -/
def pyStrOfOpt : Option String → String
  | some s => s
  | none => "None"

/-- State record `SupportWorkflowState` of `support_workflow.py`, threaded
through every workflow node. -/
structure SupportWorkflowState where
  request_id : String
  user_message : String
  category : Option String
  priority : Option String
  response : Option String
  escalated : Bool
  ticket_created : Bool
  error_message : Option String
  step_count : Nat
deriving Repr, DecidableEq

/-- Stage `validate_request`: sets `error_message` for empty / whitespace-only,
too-short (< 2 chars) or too-long (> 1000 chars) messages, returning before
the `step_count` increment; otherwise only increments `step_count`. -/
def validate_request (state : SupportWorkflowState) : SupportWorkflowState :=
  let message := state.user_message
  if message = "" ∨ (pyStrip message).length = 0 then
    { state with error_message := some "Message is empty" }
  else if message.length < 2 then
    { state with error_message := some "Message too short" }
  else if message.length > 1000 then
    { state with error_message := some "Message too long (max 1000 characters)" }
  else
    { state with step_count := state.step_count + 1 }

/-- Stage `categorize_request`: first matching keyword set wins; each branch sets
both `category` and `priority`; then `step_count` is incremented. -/
def categorize_request (state : SupportWorkflowState) : SupportWorkflowState :=
  let message := pyLower state.user_message
  let state :=
    if anyWordIn message ["password", "login", "access"] then
      { state with category := some "authentication", priority := some "medium" }
    else if anyWordIn message ["billing", "payment", "invoice"] then
      { state with category := some "billing", priority := some "high" }
    else if anyWordIn message ["bug", "error", "crash", "broken"] then
      { state with category := some "technical", priority := some "high" }
    else if anyWordIn message ["angry", "frustrated", "terrible"] then
      { state with category := some "complaint", priority := some "urgent" }
    else
      { state with category := some "general", priority := some "low" }
  { state with step_count := state.step_count + 1 }

/-- The `responses` template table of `generate_response`, including the
`dict.get` default. -/
def responsesGet (category : String) : String :=
  if category = "authentication" then
    "To reset your password, please click 'Forgot Password' on the login page and follow the instructions."
  else if category = "billing" then
    "For billing inquiries, please check your account settings or contact our billing team at billing@company.com"
  else if category = "technical" then
    "I've logged this technical issue for our engineering team. You should receive an update within 24 hours."
  else if category = "complaint" then
    "I sincerely apologize for your experience. Let me escalate this to our customer success team immediately."
  else if category = "general" then
    "Thank you for contacting us. I'll make sure you get the help you need."
  else
    "Thank you for your message. We'll get back to you soon."

/-- Stage `generate_response`: template lookup keyed on `state.get("category") or
"general"`; increments `step_count`. -/
def generate_response (state : SupportWorkflowState) : SupportWorkflowState :=
  let category := pyOrDefault state.category "general"
  { state with
      response := some (responsesGet category),
      step_count := state.step_count + 1 }

/-- Stage `check_escalation_needed`: recomputes and assigns `escalated` from
priority, category and the escalation keyword set; increments `step_count`. -/
def check_escalation_needed (state : SupportWorkflowState) : SupportWorkflowState :=
  let escalation_needed : Bool :=
    decide (state.priority = some "urgent" ∨ state.priority = some "high") ||
    decide (state.category = some "complaint" ∨ state.category = some "technical") ||
    anyWordIn (pyLower state.user_message) ["manager", "supervisor", "human"]
  { state with
      escalated := escalation_needed,
      step_count := state.step_count + 1 }

/-- The notice `create_ticket` appends, as a function of
`hash(user_message) % 10000`. -/
def ticketNotice (n : Nat) : String :=
  "\n\nSupport ticket TICKET-" ++ toString n ++
    " has been created. A human agent will contact you within 2 hours."

/-- Stage `create_ticket`: `ticket_id` is `hash(user_message) % 10000`,
sets `ticket_created`, appends the notice to `response`, increments
`step_count`. Python's `hash` is the parameter `pyhash`. -/
def create_ticket (pyhash : String → Nat) (state : SupportWorkflowState) :
    SupportWorkflowState :=
  let current_response := pyOrDefault state.response ""
  { state with
      ticket_created := true,
      response := some (current_response ++ ticketNotice (pyhash state.user_message % 10000)),
      step_count := state.step_count + 1 }

/-- Stage `handle_error`: overwrites `response` with the apology embedding
`error_message`, forces `escalated := true`, increments `step_count`. -/
def handle_error (state : SupportWorkflowState) : SupportWorkflowState :=
  { state with
      response := some ("I'm sorry, there was an issue processing your request: " ++
        pyStrOfOpt state.error_message ++ ". Please try again or contact support directly."),
      escalated := true,
      step_count := state.step_count + 1 }

/-- Stage `send_response`: only increments `step_count` (delivery is a print). -/
def send_response (state : SupportWorkflowState) : SupportWorkflowState :=
  { state with step_count := state.step_count + 1 }

/-- Routing predicate `has_error`. -/
def has_error (state : SupportWorkflowState) : String :=
  if optStrTruthy state.error_message then "error" else "continue"

/-- Routing predicate `should_escalate`. -/
def should_escalate (state : SupportWorkflowState) : String :=
  if state.escalated then "escalate" else "respond"

/-- The initial state built by `MockSupportWorkflow.process_request` (and by
the demo) for a request. -/
def initState (request_id user_message : String) : SupportWorkflowState :=
  { request_id := request_id
    user_message := user_message
    category := none
    priority := none
    response := none
    escalated := false
    ticket_created := false
    error_message := none
    step_count := 0 }

/-- Executor `MockSupportWorkflow.process_request`: validate, branch to
`handle_error` on a truthy `error_message`, otherwise categorize, generate,
check escalation, conditionally create a ticket, and send. -/
def process_request (pyhash : String → Nat) (request_id user_message : String) :
    SupportWorkflowState :=
  let state := initState request_id user_message
  let state := validate_request state
  if optStrTruthy state.error_message then
    handle_error state
  else
    let state := categorize_request state
    let state := generate_response state
    let state := check_escalation_needed state
    let state := if state.escalated then create_ticket pyhash state else state
    send_response state

/-- The trace of states of one `process_request` run: the initial state and
the state after each executed stage, in order; its last element is the
run's final state. -/
def runStates (pyhash : String → Nat) (request_id user_message : String) :
    List SupportWorkflowState :=
  let s0 := initState request_id user_message
  let s1 := validate_request s0
  if optStrTruthy s1.error_message then
    [s0, s1, handle_error s1]
  else
    let s2 := categorize_request s1
    let s3 := generate_response s2
    let s4 := check_escalation_needed s3
    if s4.escalated then
      let s5 := create_ticket pyhash s4
      [s0, s1, s2, s3, s4, s5, send_response s5]
    else
      [s0, s1, s2, s3, s4, send_response s4]

/-! ### Per-stage field lemmas -/

theorem validate_request_user_message (st : SupportWorkflowState) :
    (validate_request st).user_message = st.user_message := by
  simp only [validate_request]
  repeat' split
  all_goals rfl

theorem validate_request_escalated (st : SupportWorkflowState) :
    (validate_request st).escalated = st.escalated := by
  simp only [validate_request]
  repeat' split
  all_goals rfl

theorem validate_request_ticket_created (st : SupportWorkflowState) :
    (validate_request st).ticket_created = st.ticket_created := by
  simp only [validate_request]
  repeat' split
  all_goals rfl

theorem validate_request_category (st : SupportWorkflowState) :
    (validate_request st).category = st.category := by
  simp only [validate_request]
  repeat' split
  all_goals rfl

theorem validate_request_priority (st : SupportWorkflowState) :
    (validate_request st).priority = st.priority := by
  simp only [validate_request]
  repeat' split
  all_goals rfl

/-- Lemma: `validate_request` either records a non-empty error message and changes
nothing else, or only increments `step_count`. -/
theorem validate_cases (st : SupportWorkflowState) :
    (∃ m, validate_request st = { st with error_message := some m } ∧ m ≠ "") ∨
    validate_request st = { st with step_count := st.step_count + 1 } := by
  simp only [validate_request]
  repeat' split
  · exact Or.inl ⟨"Message is empty", rfl, by decide⟩
  · exact Or.inl ⟨"Message too short", rfl, by decide⟩
  · exact Or.inl ⟨"Message too long (max 1000 characters)", rfl, by decide⟩
  · exact Or.inr rfl

theorem categorize_request_step_count (st : SupportWorkflowState) :
    (categorize_request st).step_count = st.step_count + 1 := by
  simp only [categorize_request]
  repeat' split
  all_goals rfl

theorem categorize_request_user_message (st : SupportWorkflowState) :
    (categorize_request st).user_message = st.user_message := by
  simp only [categorize_request]
  repeat' split
  all_goals rfl

theorem categorize_request_escalated (st : SupportWorkflowState) :
    (categorize_request st).escalated = st.escalated := by
  simp only [categorize_request]
  repeat' split
  all_goals rfl

theorem categorize_request_ticket_created (st : SupportWorkflowState) :
    (categorize_request st).ticket_created = st.ticket_created := by
  simp only [categorize_request]
  repeat' split
  all_goals rfl

theorem categorize_request_error_message (st : SupportWorkflowState) :
    (categorize_request st).error_message = st.error_message := by
  simp only [categorize_request]
  repeat' split
  all_goals rfl

/-- The fixed category→priority mapping of `categorize_request`. -/
def priorityFor (c : String) : String :=
  if c = "complaint" then "urgent"
  else if c = "technical" then "high"
  else if c = "billing" then "high"
  else if c = "authentication" then "medium"
  else "low"

/-- Lemma: `categorize_request` always sets `category` to one of the five labels and
`priority` to exactly the mapped value of that label. -/
theorem categorize_cases (st : SupportWorkflowState) :
    ∃ c, (categorize_request st).category = some c ∧
      (categorize_request st).priority = some (priorityFor c) ∧
      c ∈ (["authentication", "billing", "technical", "complaint", "general"] : List String) := by
  simp only [categorize_request]
  repeat' split
  · exact ⟨"authentication", rfl, rfl, by decide⟩
  · exact ⟨"billing", rfl, rfl, by decide⟩
  · exact ⟨"technical", rfl, rfl, by decide⟩
  · exact ⟨"complaint", rfl, rfl, by decide⟩
  · exact ⟨"general", rfl, rfl, by decide⟩

theorem generate_response_escalated (st : SupportWorkflowState) :
    (generate_response st).escalated = st.escalated := rfl

theorem generate_response_ticket_created (st : SupportWorkflowState) :
    (generate_response st).ticket_created = st.ticket_created := rfl

theorem generate_response_category (st : SupportWorkflowState) :
    (generate_response st).category = st.category := rfl

theorem generate_response_priority (st : SupportWorkflowState) :
    (generate_response st).priority = st.priority := rfl

theorem generate_response_user_message (st : SupportWorkflowState) :
    (generate_response st).user_message = st.user_message := rfl

theorem generate_response_step_count (st : SupportWorkflowState) :
    (generate_response st).step_count = st.step_count + 1 := rfl

theorem check_escalation_needed_escalated (st : SupportWorkflowState) :
    (check_escalation_needed st).escalated =
      (decide (st.priority = some "urgent" ∨ st.priority = some "high") ||
       decide (st.category = some "complaint" ∨ st.category = some "technical") ||
       anyWordIn (pyLower st.user_message) ["manager", "supervisor", "human"]) := rfl

theorem check_escalation_needed_ticket_created (st : SupportWorkflowState) :
    (check_escalation_needed st).ticket_created = st.ticket_created := rfl

theorem check_escalation_needed_step_count (st : SupportWorkflowState) :
    (check_escalation_needed st).step_count = st.step_count + 1 := rfl

theorem create_ticket_escalated (pyhash : String → Nat) (st : SupportWorkflowState) :
    (create_ticket pyhash st).escalated = st.escalated := rfl

theorem create_ticket_ticket_created (pyhash : String → Nat) (st : SupportWorkflowState) :
    (create_ticket pyhash st).ticket_created = true := rfl

theorem create_ticket_step_count (pyhash : String → Nat) (st : SupportWorkflowState) :
    (create_ticket pyhash st).step_count = st.step_count + 1 := rfl

theorem create_ticket_response (pyhash : String → Nat) (st : SupportWorkflowState) :
    (create_ticket pyhash st).response =
      some (pyOrDefault st.response "" ++ ticketNotice (pyhash st.user_message % 10000)) := rfl

theorem handle_error_escalated (st : SupportWorkflowState) :
    (handle_error st).escalated = true := rfl

theorem handle_error_ticket_created (st : SupportWorkflowState) :
    (handle_error st).ticket_created = st.ticket_created := rfl

theorem handle_error_step_count (st : SupportWorkflowState) :
    (handle_error st).step_count = st.step_count + 1 := rfl

theorem send_response_escalated (st : SupportWorkflowState) :
    (send_response st).escalated = st.escalated := rfl

theorem send_response_ticket_created (st : SupportWorkflowState) :
    (send_response st).ticket_created = st.ticket_created := rfl

theorem send_response_step_count (st : SupportWorkflowState) :
    (send_response st).step_count = st.step_count + 1 := rfl

/-! ### Claims -/

/-- C1 (amended): the final `step_count` of a run is 5 on a clean
non-escalated path, 6 when `CreateTicket` also runs, and 1 on the error
path, because `validate_request` returns without incrementing `step_count`
when it records an error, so only `HandleError`'s increment counts there. -/
theorem C1_step_count_amended (pyhash : String → Nat) (rid msg : String) :
    ((process_request pyhash rid msg).step_count =
      if optStrTruthy (validate_request (initState rid msg)).error_message then 1
      else if (check_escalation_needed (generate_response (categorize_request
          (validate_request (initState rid msg))))).escalated then 6
      else 5) ∧
    (optStrTruthy (validate_request (initState rid msg)).error_message = true →
      (validate_request (initState rid msg)).step_count = 0) := by
  rcases validate_cases (initState rid msg) with ⟨m, heq, hm⟩ | heq
  · have hT : optStrTruthy (validate_request (initState rid msg)).error_message = true := by
      rw [heq]; simpa [optStrTruthy] using hm
    refine ⟨?_, fun _ => by rw [heq]; rfl⟩
    simp only [process_request, hT, if_true]
    rw [handle_error_step_count, heq]
    rfl
  · have hF : optStrTruthy (validate_request (initState rid msg)).error_message = false := by
      rw [heq]; rfl
    have h4 : (check_escalation_needed (generate_response (categorize_request
        (validate_request (initState rid msg))))).step_count = 4 := by
      rw [check_escalation_needed_step_count, generate_response_step_count,
        categorize_request_step_count, heq]
      rfl
    refine ⟨?_, fun hTrue => by rw [hF] at hTrue; cases hTrue⟩
    simp only [process_request, hF, Bool.false_eq_true, if_false]
    cases hesc : (check_escalation_needed (generate_response (categorize_request
        (validate_request (initState rid msg))))).escalated
    · simp only [hesc, Bool.false_eq_true, if_false]
      rw [send_response_step_count, h4]
    · simp only [hesc, if_true]
      rw [send_response_step_count, create_ticket_step_count, h4]

/-- C1 counterexample: on the error path (empty input) the final
`step_count` is 1, not 2 as the claim states. -/
theorem C1_counterexample :
    (process_request (fun _ => 0) "R1" "").step_count = 1 ∧
    (process_request (fun _ => 0) "R1" "").step_count ≠ 2 := by decide

/-- C1 witness: the amended theorem applied to the empty input. -/
theorem C1_witness :
    (process_request (fun _ => 0) "R1" "").step_count = 1 ∧
    (validate_request (initState "R1" "")).step_count = 0 :=
  ⟨(C1_step_count_amended (fun _ => 0) "R1" "").1.trans (by decide),
   (C1_step_count_amended (fun _ => 0) "R1" "").2 (by decide)⟩

set_option maxHeartbeats 1000000 in
/-- C2 (amended): `validate_request` sets `error_message` exactly when the
input is empty or whitespace-only, shorter than 2 characters, or longer
than 1000 characters, and otherwise changes nothing but `step_count`; the
input "Hi" (length 2, not below the minimum) therefore passes validation
and its run ends un-escalated with no error. -/
theorem C2_validate_amended (pyhash : String → Nat) (rid msg : String) :
    (validate_request (initState rid msg) =
      if msg = "" ∨ (pyStrip msg).length = 0 then
        { initState rid msg with error_message := some "Message is empty" }
      else if msg.length < 2 then
        { initState rid msg with error_message := some "Message too short" }
      else if msg.length > 1000 then
        { initState rid msg with error_message := some "Message too long (max 1000 characters)" }
      else
        { initState rid msg with step_count := 1 }) ∧
    (validate_request (initState rid "Hi")).error_message = none ∧
    (process_request pyhash rid "Hi").error_message = none ∧
    (process_request pyhash rid "Hi").escalated = false ∧
    (process_request pyhash rid "Hi").response = some (responsesGet "general") := by
  refine ⟨rfl, rfl, ?_, ?_, ?_⟩ <;> rfl

/-- C2 counterexample: the run on exactly "Hi" sets no error and ends with
`escalated = false`, contradicting the claimed message-too-short error and
forced escalation. -/
theorem C2_counterexample :
    (process_request (fun _ => 0) "REQ004" "Hi").error_message = none ∧
    (process_request (fun _ => 0) "REQ004" "Hi").escalated = false := by decide

/-- C3 (amended): `categorize_request` always sets one of the five category
labels and sets `priority` to exactly the fixed mapping of that label
(complaint→urgent, technical→high, billing→high, authentication→medium,
general→low); there is no urgency-keyword override. -/
theorem C3_priority_mapping_amended (st : SupportWorkflowState) :
    ∃ c, (categorize_request st).category = some c ∧
      c ∈ (["authentication", "billing", "technical", "complaint", "general"] : List String) ∧
      (categorize_request st).priority = some (priorityFor c) ∧
      priorityFor "complaint" = "urgent" ∧ priorityFor "technical" = "high" ∧
      priorityFor "billing" = "high" ∧ priorityFor "authentication" = "medium" ∧
      priorityFor "general" = "low" := by
  rcases categorize_cases st with ⟨c, hcat, hpri, hmem⟩
  exact ⟨c, hcat, hmem, hpri, rfl, rfl, rfl, rfl, rfl⟩

/-- C3 counterexample: a message containing the urgency keyword "urgent"
that categorizes as complaint keeps priority "urgent"; it is not forced to
"high". -/
theorem C3_counterexample :
    strContains (pyLower "this is urgent and I am angry") "urgent" = true ∧
    (categorize_request (initState "R1" "this is urgent and I am angry")).category =
      some "complaint" ∧
    (categorize_request (initState "R1" "this is urgent and I am angry")).priority =
      some "urgent" ∧
    (categorize_request (initState "R1" "this is urgent and I am angry")).priority ≠
      some "high" := by decide

/-- C10: for every whitespace-only (stripped-empty) input,
`validate_request` sets `error_message` to "Message is empty" without
incrementing `step_count`, and the run is routed to the error path. -/
theorem C10_whitespace_rejected (pyhash : String → Nat) (rid msg : String)
    (hws : (pyStrip msg).length = 0) :
    (validate_request (initState rid msg)).error_message = some "Message is empty" ∧
    (validate_request (initState rid msg)).step_count = 0 ∧
    process_request pyhash rid msg = handle_error (validate_request (initState rid msg)) := by
  have hcond : (initState rid msg).user_message = "" ∨
      (pyStrip (initState rid msg).user_message).length = 0 := Or.inr hws
  have heq : validate_request (initState rid msg) =
      { initState rid msg with error_message := some "Message is empty" } := by
    simp only [validate_request]
    rw [if_pos hcond]
  have hT : optStrTruthy (validate_request (initState rid msg)).error_message = true := by
    rw [heq]; rfl
  refine ⟨by rw [heq], by rw [heq]; rfl, ?_⟩
  simp only [process_request]
  rw [if_pos hT]

/-- C10 witness: the theorem applied to the whitespace-only input "   ". -/
theorem C10_witness :
    (validate_request (initState "R1" "   ")).error_message = some "Message is empty" ∧
    (validate_request (initState "R1" "   ")).step_count = 0 :=
  ⟨(C10_whitespace_rejected (fun _ => 0) "R1" "   " (by decide)).1,
   (C10_whitespace_rejected (fun _ => 0) "R1" "   " (by decide)).2.1⟩

theorem generate_response_response (st : SupportWorkflowState) :
    (generate_response st).response = some (responsesGet (pyOrDefault st.category "general")) := rfl

theorem generate_response_error_message (st : SupportWorkflowState) :
    (generate_response st).error_message = st.error_message := rfl

theorem check_escalation_needed_user_message (st : SupportWorkflowState) :
    (check_escalation_needed st).user_message = st.user_message := rfl

theorem check_escalation_needed_category (st : SupportWorkflowState) :
    (check_escalation_needed st).category = st.category := rfl

theorem check_escalation_needed_priority (st : SupportWorkflowState) :
    (check_escalation_needed st).priority = st.priority := rfl

theorem check_escalation_needed_response (st : SupportWorkflowState) :
    (check_escalation_needed st).response = st.response := rfl

theorem check_escalation_needed_error_message (st : SupportWorkflowState) :
    (check_escalation_needed st).error_message = st.error_message := rfl

theorem create_ticket_user_message (pyhash : String → Nat) (st : SupportWorkflowState) :
    (create_ticket pyhash st).user_message = st.user_message := rfl

theorem create_ticket_category (pyhash : String → Nat) (st : SupportWorkflowState) :
    (create_ticket pyhash st).category = st.category := rfl

theorem create_ticket_priority (pyhash : String → Nat) (st : SupportWorkflowState) :
    (create_ticket pyhash st).priority = st.priority := rfl

theorem create_ticket_error_message (pyhash : String → Nat) (st : SupportWorkflowState) :
    (create_ticket pyhash st).error_message = st.error_message := rfl

theorem handle_error_user_message (st : SupportWorkflowState) :
    (handle_error st).user_message = st.user_message := rfl

theorem handle_error_category (st : SupportWorkflowState) :
    (handle_error st).category = st.category := rfl

theorem handle_error_priority (st : SupportWorkflowState) :
    (handle_error st).priority = st.priority := rfl

theorem handle_error_response (st : SupportWorkflowState) :
    (handle_error st).response =
      some ("I'm sorry, there was an issue processing your request: " ++
        pyStrOfOpt st.error_message ++ ". Please try again or contact support directly.") := rfl

theorem handle_error_error_message (st : SupportWorkflowState) :
    (handle_error st).error_message = st.error_message := rfl

theorem send_response_user_message (st : SupportWorkflowState) :
    (send_response st).user_message = st.user_message := rfl

theorem send_response_category (st : SupportWorkflowState) :
    (send_response st).category = st.category := rfl

theorem send_response_priority (st : SupportWorkflowState) :
    (send_response st).priority = st.priority := rfl

theorem send_response_response (st : SupportWorkflowState) :
    (send_response st).response = st.response := rfl

theorem send_response_error_message (st : SupportWorkflowState) :
    (send_response st).error_message = st.error_message := rfl

/-- Agreement of two states on every field except `request_id`; used to show
runs do not depend on the request identifier. -/
def SameCore (s t : SupportWorkflowState) : Prop :=
  s.user_message = t.user_message ∧ s.category = t.category ∧ s.priority = t.priority ∧
  s.response = t.response ∧ s.escalated = t.escalated ∧ s.ticket_created = t.ticket_created ∧
  s.error_message = t.error_message ∧ s.step_count = t.step_count

theorem validate_SameCore {s t : SupportWorkflowState} (h : SameCore s t) :
    SameCore (validate_request s) (validate_request t) := by
  obtain ⟨h1, h2, h3, h4, h5, h6, h7, h8⟩ := h
  simp only [validate_request, h1]
  by_cases c1 : t.user_message = "" ∨ (pyStrip t.user_message).length = 0
  · simp only [if_pos c1]
    exact ⟨rfl, h2, h3, h4, h5, h6, rfl, h8⟩
  · simp only [if_neg c1]
    by_cases c2 : t.user_message.length < 2
    · simp only [if_pos c2]
      exact ⟨rfl, h2, h3, h4, h5, h6, rfl, h8⟩
    · simp only [if_neg c2]
      by_cases c3 : t.user_message.length > 1000
      · simp only [if_pos c3]
        exact ⟨rfl, h2, h3, h4, h5, h6, rfl, h8⟩
      · simp only [if_neg c3]
        exact ⟨rfl, h2, h3, h4, h5, h6, h7, congrArg (fun n => n + 1) h8⟩

theorem categorize_SameCore {s t : SupportWorkflowState} (h : SameCore s t) :
    SameCore (categorize_request s) (categorize_request t) := by
  obtain ⟨h1, h2, h3, h4, h5, h6, h7, h8⟩ := h
  simp only [categorize_request, h1]
  by_cases c1 : anyWordIn (pyLower t.user_message) ["password", "login", "access"] = true
  · simp only [if_pos c1]
    exact ⟨rfl, rfl, rfl, h4, h5, h6, h7, congrArg (fun n => n + 1) h8⟩
  · simp only [if_neg c1]
    by_cases c2 : anyWordIn (pyLower t.user_message) ["billing", "payment", "invoice"] = true
    · simp only [if_pos c2]
      exact ⟨rfl, rfl, rfl, h4, h5, h6, h7, congrArg (fun n => n + 1) h8⟩
    · simp only [if_neg c2]
      by_cases c3 : anyWordIn (pyLower t.user_message) ["bug", "error", "crash", "broken"] = true
      · simp only [if_pos c3]
        exact ⟨rfl, rfl, rfl, h4, h5, h6, h7, congrArg (fun n => n + 1) h8⟩
      · simp only [if_neg c3]
        by_cases c4 : anyWordIn (pyLower t.user_message) ["angry", "frustrated", "terrible"] = true
        · simp only [if_pos c4]
          exact ⟨rfl, rfl, rfl, h4, h5, h6, h7, congrArg (fun n => n + 1) h8⟩
        · simp only [if_neg c4]
          exact ⟨rfl, rfl, rfl, h4, h5, h6, h7, congrArg (fun n => n + 1) h8⟩

theorem generate_SameCore {s t : SupportWorkflowState} (h : SameCore s t) :
    SameCore (generate_response s) (generate_response t) := by
  obtain ⟨h1, h2, h3, h4, h5, h6, h7, h8⟩ := h
  exact ⟨h1, h2, h3, congrArg (fun c => some (responsesGet (pyOrDefault c "general"))) h2,
    h5, h6, h7, congrArg (fun n => n + 1) h8⟩

theorem check_SameCore {s t : SupportWorkflowState} (h : SameCore s t) :
    SameCore (check_escalation_needed s) (check_escalation_needed t) := by
  obtain ⟨h1, h2, h3, h4, h5, h6, h7, h8⟩ := h
  refine ⟨h1, h2, h3, h4, ?_, h6, h7, congrArg (fun n => n + 1) h8⟩
  simp only [check_escalation_needed_escalated]
  rw [h1, h2, h3]

theorem create_SameCore (pyhash : String → Nat) {s t : SupportWorkflowState} (h : SameCore s t) :
    SameCore (create_ticket pyhash s) (create_ticket pyhash t) := by
  obtain ⟨h1, h2, h3, h4, h5, h6, h7, h8⟩ := h
  refine ⟨h1, h2, h3, ?_, h5, rfl, h7, congrArg (fun n => n + 1) h8⟩
  simp only [create_ticket_response]
  rw [h1, h4]

theorem handle_SameCore {s t : SupportWorkflowState} (h : SameCore s t) :
    SameCore (handle_error s) (handle_error t) := by
  obtain ⟨h1, h2, h3, h4, h5, h6, h7, h8⟩ := h
  refine ⟨h1, h2, h3, ?_, rfl, h6, h7, congrArg (fun n => n + 1) h8⟩
  simp only [handle_error_response]
  rw [h7]

theorem send_SameCore {s t : SupportWorkflowState} (h : SameCore s t) :
    SameCore (send_response s) (send_response t) := by
  obtain ⟨h1, h2, h3, h4, h5, h6, h7, h8⟩ := h
  exact ⟨h1, h2, h3, h4, h5, h6, h7, congrArg (fun n => n + 1) h8⟩

/-- Lemma: two runs with the same message and hash function but different
request identifiers agree on every field except `request_id`. -/
theorem process_request_SameCore (pyhash : String → Nat) (rid rid2 msg : String) :
    SameCore (process_request pyhash rid msg) (process_request pyhash rid2 msg) := by
  have h0 : SameCore (initState rid msg) (initState rid2 msg) :=
    ⟨rfl, rfl, rfl, rfl, rfl, rfl, rfl, rfl⟩
  have h1 := validate_SameCore h0
  have herr : (validate_request (initState rid msg)).error_message =
      (validate_request (initState rid2 msg)).error_message := h1.2.2.2.2.2.2.1
  simp only [process_request, herr]
  by_cases ce : optStrTruthy (validate_request (initState rid2 msg)).error_message = true
  · simp only [if_pos ce]
    exact handle_SameCore h1
  · simp only [if_neg ce]
    have h2 := categorize_SameCore h1
    have h3 := generate_SameCore h2
    have h4 := check_SameCore h3
    have hesc : (check_escalation_needed (generate_response (categorize_request
        (validate_request (initState rid msg))))).escalated =
        (check_escalation_needed (generate_response (categorize_request
        (validate_request (initState rid2 msg))))).escalated := h4.2.2.2.2.1
    simp only [hesc]
    by_cases cesc : (check_escalation_needed (generate_response (categorize_request
        (validate_request (initState rid2 msg))))).escalated = true
    · simp only [if_pos cesc]
      exact send_SameCore (create_SameCore pyhash h4)
    · simp only [if_neg cesc]
      exact send_SameCore h4

/-- C4 (amended): the ticket identifier embedded by `create_ticket` is
derived from `hash(user_message) % 10000`, not from `request_id`: the
appended notice is exactly `ticketNotice (pyhash user_message % 10000)`,
and two runs with the same message but different request identifiers
produce identical `response` text, while the response never depends on
`request_id` at all. -/
theorem C4_ticket_id_amended (pyhash : String → Nat) (rid rid2 msg : String)
    (st : SupportWorkflowState) :
    (process_request pyhash rid msg).response = (process_request pyhash rid2 msg).response ∧
    (create_ticket pyhash st).response =
      some (pyOrDefault st.response "" ++ ticketNotice (pyhash st.user_message % 10000)) :=
  ⟨(process_request_SameCore pyhash rid rid2 msg).2.2.2.1, create_ticket_response pyhash st⟩

/-- C4 counterexample: two escalated runs with the same `request_id` "R1"
but different messages embed different ticket identifiers (here the hash
parameter is instantiated with `String.length`, a stand-in for Python's
process-salted `hash`): the otherwise identical responses differ in the
ticket number, refuting derivation from `request_id`. -/
theorem C4_counterexample :
    (process_request String.length "R1" "angry!").ticket_created = true ∧
    (process_request String.length "R1" "angry!!").ticket_created = true ∧
    (process_request String.length "R1" "angry!").category =
      (process_request String.length "R1" "angry!!").category ∧
    (process_request String.length "R1" "angry!").response ≠
      (process_request String.length "R1" "angry!!").response := by decide

/-- C5 (amended): along any run from the default initial state the
`escalated` flag is monotone (each executed stage preserves a `true` it
sees), and every stage other than `check_escalation_needed` preserves
`escalated = true` on arbitrary states; `check_escalation_needed` itself
recomputes the flag, but in a run it only executes while `escalated` is
still `false`. -/
theorem C5_escalated_monotone (pyhash : String → Nat) (rid msg : String) :
    List.Chain' (fun a b => a.escalated = true → b.escalated = true)
      (runStates pyhash rid msg) ∧
    (∀ st : SupportWorkflowState, st.escalated = true →
      (validate_request st).escalated = true ∧ (categorize_request st).escalated = true ∧
      (generate_response st).escalated = true ∧ (create_ticket pyhash st).escalated = true ∧
      (handle_error st).escalated = true ∧ (send_response st).escalated = true) := by
  constructor
  · rcases validate_cases (initState rid msg) with ⟨m, heq, hm⟩ | heq
    · have hT : optStrTruthy (validate_request (initState rid msg)).error_message = true := by
        rw [heq]; simpa [optStrTruthy] using hm
      have hlist : runStates pyhash rid msg =
          [initState rid msg, validate_request (initState rid msg),
            handle_error (validate_request (initState rid msg))] := by
        simp only [runStates, hT, if_true]
      rw [hlist]
      simp only [List.chain'_cons, List.chain'_singleton, and_true]
      constructor
      · intro hx; rw [validate_request_escalated]; exact hx
      · intro _; exact handle_error_escalated _
    · have hF : optStrTruthy (validate_request (initState rid msg)).error_message = false := by
        rw [heq]; rfl
      have e3 : (generate_response (categorize_request
          (validate_request (initState rid msg)))).escalated = false := by
        rw [generate_response_escalated, categorize_request_escalated,
          validate_request_escalated]
        rfl
      cases hesc : (check_escalation_needed (generate_response (categorize_request
          (validate_request (initState rid msg))))).escalated
      · have hlist : runStates pyhash rid msg =
            [initState rid msg, validate_request (initState rid msg),
              categorize_request (validate_request (initState rid msg)),
              generate_response (categorize_request (validate_request (initState rid msg))),
              check_escalation_needed (generate_response (categorize_request
                (validate_request (initState rid msg)))),
              send_response (check_escalation_needed (generate_response (categorize_request
                (validate_request (initState rid msg)))))] := by
          simp only [runStates, hF, Bool.false_eq_true, if_false, hesc]
        rw [hlist]
        simp only [List.chain'_cons, List.chain'_singleton, and_true]
        refine ⟨?_, ?_, ?_, ?_, ?_⟩
        · intro hx; rw [validate_request_escalated]; exact hx
        · intro hx; rw [categorize_request_escalated]; exact hx
        · intro hx; rw [generate_response_escalated]; exact hx
        · intro hx; rw [e3] at hx; exact Bool.noConfusion hx
        · intro hx; rw [send_response_escalated]; exact hx
      · have hlist : runStates pyhash rid msg =
            [initState rid msg, validate_request (initState rid msg),
              categorize_request (validate_request (initState rid msg)),
              generate_response (categorize_request (validate_request (initState rid msg))),
              check_escalation_needed (generate_response (categorize_request
                (validate_request (initState rid msg)))),
              create_ticket pyhash (check_escalation_needed (generate_response (categorize_request
                (validate_request (initState rid msg))))),
              send_response (create_ticket pyhash (check_escalation_needed (generate_response
                (categorize_request (validate_request (initState rid msg))))))] := by
          simp only [runStates, hF, Bool.false_eq_true, if_false, hesc, if_true]
        rw [hlist]
        simp only [List.chain'_cons, List.chain'_singleton, and_true]
        refine ⟨?_, ?_, ?_, ?_, ?_, ?_⟩
        · intro hx; rw [validate_request_escalated]; exact hx
        · intro hx; rw [categorize_request_escalated]; exact hx
        · intro hx; rw [generate_response_escalated]; exact hx
        · intro _; exact hesc
        · intro _; rw [create_ticket_escalated]; exact hesc
        · intro _; rw [send_response_escalated, create_ticket_escalated]; exact hesc
  · intro st h
    refine ⟨?_, ?_, ?_, ?_, handle_error_escalated st, ?_⟩
    · rw [validate_request_escalated]; exact h
    · rw [categorize_request_escalated]; exact h
    · rw [generate_response_escalated]; exact h
    · rw [create_ticket_escalated]; exact h
    · rw [send_response_escalated]; exact h

/-- C5 counterexample: applying `check_escalation_needed` to a state that
already has `escalated = true` but meets no escalation condition resets the
flag to `false`, so the stage does not leave an existing `true` intact. -/
theorem C5_counterexample :
    ({ initState "R1" "hello there" with escalated := true, category := some "general", priority := some "low" } : SupportWorkflowState).escalated = true ∧
    (check_escalation_needed { initState "R1" "hello there" with escalated := true, category := some "general", priority := some "low" }).escalated = false := by
  decide

/-- C5 witness: the amended theorem applied at a state with the flag set. -/
theorem C5_witness :
    (send_response { initState "R1" "ok" with escalated := true }).escalated = true :=
  ((C5_escalated_monotone (fun _ => 0) "R1" "ok").2
    { initState "R1" "ok" with escalated := true } rfl).2.2.2.2.2

/-- C6 (amended): for every input that passes validation and either
contains an escalation keyword or is categorized as complaint/technical or
prioritized high/urgent, the final state has `escalated = true` and
`ticket_created = true`; inputs rejected by validation (e.g. over 1000
characters) take the error path and never get a ticket. -/
theorem C6_escalation_creates_ticket (pyhash : String → Nat) (rid msg : String)
    (hok : (validate_request (initState rid msg)).error_message = none)
    (hcond : anyWordIn (pyLower msg) ["manager", "supervisor", "human"] = true ∨
      (categorize_request (validate_request (initState rid msg))).category = some "complaint" ∨
      (categorize_request (validate_request (initState rid msg))).category = some "technical" ∨
      (categorize_request (validate_request (initState rid msg))).priority = some "high" ∨
      (categorize_request (validate_request (initState rid msg))).priority = some "urgent") :
    (process_request pyhash rid msg).escalated = true ∧
    (process_request pyhash rid msg).ticket_created = true := by
  have hF : optStrTruthy (validate_request (initState rid msg)).error_message = false := by
    rw [hok]; rfl
  have hum : (generate_response (categorize_request
      (validate_request (initState rid msg)))).user_message = msg := by
    rw [generate_response_user_message, categorize_request_user_message,
      validate_request_user_message]
    rfl
  have hesc : (check_escalation_needed (generate_response (categorize_request
      (validate_request (initState rid msg))))).escalated = true := by
    rw [check_escalation_needed_escalated, generate_response_priority,
      generate_response_category, hum]
    rcases hcond with h | h | h | h | h
    · rw [h]; simp
    · rw [h]; simp
    · rw [h]; simp
    · rw [h]; simp
    · rw [h]; simp
  simp only [process_request, hF, Bool.false_eq_true, if_false, hesc, if_true]
  constructor
  · rw [send_response_escalated, create_ticket_escalated]; exact hesc
  · rw [send_response_ticket_created, create_ticket_ticket_created]

set_option maxRecDepth 10000 in
/-- C6 counterexample: an input longer than 1000 characters that contains
the escalation keyword "manager" fails validation, so its run ends with
`ticket_created = false`, contradicting the unconditional claim. -/
theorem C6_counterexample :
    strContains (pyLower ("manager" ++ String.mk (List.replicate 1001 'a'))) "manager" = true ∧
    (process_request (fun _ => 0) "R1"
      ("manager" ++ String.mk (List.replicate 1001 'a'))).ticket_created = false ∧
    (process_request (fun _ => 0) "R1"
      ("manager" ++ String.mk (List.replicate 1001 'a'))).error_message ≠ none := by
  decide

/-- C6 witness: the theorem applied to the valid complaint "I am angry". -/
theorem C6_witness :
    (process_request (fun _ => 0) "R1" "I am angry").escalated = true ∧
    (process_request (fun _ => 0) "R1" "I am angry").ticket_created = true :=
  C6_escalation_creates_ticket (fun _ => 0) "R1" "I am angry" (by decide)
    (Or.inr (Or.inl (by decide)))

/-- C7: in every state reachable during a run from the default initial
state, `ticket_created = true` implies `escalated = true`, and the run's
final state is among the reachable states, so the implication holds of it
on every path, the error path included. -/
theorem C7_ticket_implies_escalated (pyhash : String → Nat) (rid msg : String) :
    (∀ s ∈ runStates pyhash rid msg, s.ticket_created = true → s.escalated = true) ∧
    process_request pyhash rid msg ∈ runStates pyhash rid msg := by
  have t0 : (initState rid msg).ticket_created = false := rfl
  have t1 : (validate_request (initState rid msg)).ticket_created = false := by
    rw [validate_request_ticket_created]; exact t0
  have t2 : (categorize_request (validate_request (initState rid msg))).ticket_created
      = false := by
    rw [categorize_request_ticket_created, t1]
  have t3 : (generate_response (categorize_request
      (validate_request (initState rid msg)))).ticket_created = false := by
    rw [generate_response_ticket_created, t2]
  have t4 : (check_escalation_needed (generate_response (categorize_request
      (validate_request (initState rid msg))))).ticket_created = false := by
    rw [check_escalation_needed_ticket_created, t3]
  rcases validate_cases (initState rid msg) with ⟨m, heq, hm⟩ | heq
  · have hT : optStrTruthy (validate_request (initState rid msg)).error_message = true := by
      rw [heq]; simpa [optStrTruthy] using hm
    have hlist : runStates pyhash rid msg =
        [initState rid msg, validate_request (initState rid msg),
          handle_error (validate_request (initState rid msg))] := by
      simp only [runStates, hT, if_true]
    have hrun : process_request pyhash rid msg =
        handle_error (validate_request (initState rid msg)) := by
      simp only [process_request, hT, if_true]
    rw [hlist, hrun]
    constructor
    · intro s hs
      simp only [List.mem_cons, List.not_mem_nil, or_false] at hs
      rcases hs with rfl | rfl | rfl
      · intro hc; rw [t0] at hc; exact Bool.noConfusion hc
      · intro hc; rw [t1] at hc; exact Bool.noConfusion hc
      · intro _; exact handle_error_escalated _
    · simp [List.mem_cons]
  · have hF : optStrTruthy (validate_request (initState rid msg)).error_message = false := by
      rw [heq]; rfl
    cases hesc : (check_escalation_needed (generate_response (categorize_request
        (validate_request (initState rid msg))))).escalated
    · have hlist : runStates pyhash rid msg =
          [initState rid msg, validate_request (initState rid msg),
            categorize_request (validate_request (initState rid msg)),
            generate_response (categorize_request (validate_request (initState rid msg))),
            check_escalation_needed (generate_response (categorize_request
              (validate_request (initState rid msg)))),
            send_response (check_escalation_needed (generate_response (categorize_request
              (validate_request (initState rid msg)))))] := by
        simp only [runStates, hF, Bool.false_eq_true, if_false, hesc]
      have hrun : process_request pyhash rid msg =
          send_response (check_escalation_needed (generate_response (categorize_request
            (validate_request (initState rid msg))))) := by
        simp only [process_request, hF, Bool.false_eq_true, if_false, hesc]
      rw [hlist, hrun]
      constructor
      · intro s hs
        simp only [List.mem_cons, List.not_mem_nil, or_false] at hs
        rcases hs with rfl | rfl | rfl | rfl | rfl | rfl
        · intro hc; rw [t0] at hc; exact Bool.noConfusion hc
        · intro hc; rw [t1] at hc; exact Bool.noConfusion hc
        · intro hc; rw [t2] at hc; exact Bool.noConfusion hc
        · intro hc; rw [t3] at hc; exact Bool.noConfusion hc
        · intro hc; rw [t4] at hc; exact Bool.noConfusion hc
        · intro hc; rw [send_response_ticket_created, t4] at hc; exact Bool.noConfusion hc
      · simp [List.mem_cons]
    · have hlist : runStates pyhash rid msg =
          [initState rid msg, validate_request (initState rid msg),
            categorize_request (validate_request (initState rid msg)),
            generate_response (categorize_request (validate_request (initState rid msg))),
            check_escalation_needed (generate_response (categorize_request
              (validate_request (initState rid msg)))),
            create_ticket pyhash (check_escalation_needed (generate_response (categorize_request
              (validate_request (initState rid msg))))),
            send_response (create_ticket pyhash (check_escalation_needed (generate_response
              (categorize_request (validate_request (initState rid msg))))))] := by
        simp only [runStates, hF, Bool.false_eq_true, if_false, hesc, if_true]
      have hrun : process_request pyhash rid msg =
          send_response (create_ticket pyhash (check_escalation_needed (generate_response
            (categorize_request (validate_request (initState rid msg)))))) := by
        simp only [process_request, hF, Bool.false_eq_true, if_false, hesc, if_true]
      rw [hlist, hrun]
      constructor
      · intro s hs
        simp only [List.mem_cons, List.not_mem_nil, or_false] at hs
        rcases hs with rfl | rfl | rfl | rfl | rfl | rfl | rfl
        · intro hc; rw [t0] at hc; exact Bool.noConfusion hc
        · intro hc; rw [t1] at hc; exact Bool.noConfusion hc
        · intro hc; rw [t2] at hc; exact Bool.noConfusion hc
        · intro hc; rw [t3] at hc; exact Bool.noConfusion hc
        · intro hc; rw [t4] at hc; exact Bool.noConfusion hc
        · intro _; rw [create_ticket_escalated]; exact hesc
        · intro _; rw [send_response_escalated, create_ticket_escalated]; exact hesc
      · simp [List.mem_cons]

/-- C7 witness: the implication instantiated at the final state of an
escalated run, which does create a ticket. -/
theorem C7_witness : (process_request (fun _ => 0) "R1" "I am angry").escalated = true :=
  (C7_ticket_implies_escalated (fun _ => 0) "R1" "I am angry").1 _
    (C7_ticket_implies_escalated (fun _ => 0) "R1" "I am angry").2 (by decide)

/-- State record `WorkflowState` of `hf_workflow.py`. -/
structure WorkflowStateHF where
  message : String
  category : Option String
  priority : Option String
  response : Option String
  escalated : Bool
deriving Repr, DecidableEq

/-- Fallback template table of `GeminiWorkflow._get_fallback_response`,
including the `dict.get` default "We're here to help!". -/
def hfFallbackResponses (category : String) : String :=
  if category = "authentication" then
    "To reset your password, click 'Forgot Password' on the login page."
  else if category = "billing" then
    "For billing questions, contact billing@company.com or check your account settings."
  else if category = "technical" then
    "Please describe the issue in detail and we'll investigate. You can also check our troubleshooting guide."
  else if category = "general" then
    "Thanks for contacting us. How can we help you today?"
  else
    "We're here to help!"

/-- Stage `GeminiWorkflow.generate_response`: when `use_llm` is set it tries
the generation collaborator, catching any failure (modelled as
`Except.error`) and falling back to the template table keyed on
`state.category or ""`; without `use_llm` it goes straight to the table. -/
def hfGenerateResponse (useLlm : Bool) (llm : Except String String)
    (state : WorkflowStateHF) : WorkflowStateHF :=
  if useLlm then
    match llm with
    | Except.ok r => { state with response := some r }
    | Except.error _ =>
        { state with response := some (hfFallbackResponses (pyOrDefault state.category "")) }
  else
    { state with response := some (hfFallbackResponses (pyOrDefault state.category "")) }

/-- C8: when the generation collaborator fails, `generate_response` does not
propagate the failure: it returns the state with the category-keyed fallback
template as the response, which is never empty and never missing. -/
theorem C8_generation_failure_fallback (e : String) (st : WorkflowStateHF) :
    hfGenerateResponse true (Except.error e) st =
      { st with response := some (hfFallbackResponses (pyOrDefault st.category "")) } ∧
    (∀ c : String, hfFallbackResponses c ≠ "") ∧
    (hfGenerateResponse true (Except.error e) st).response ≠ some "" ∧
    (hfGenerateResponse true (Except.error e) st).response ≠ none := by
  have hne : ∀ c : String, hfFallbackResponses c ≠ "" := by
    intro c
    simp only [hfFallbackResponses]
    repeat' split
    all_goals decide
  have hval : (hfGenerateResponse true (Except.error e) st).response =
      some (hfFallbackResponses (pyOrDefault st.category "")) := rfl
  refine ⟨rfl, hne, ?_, ?_⟩
  · rw [hval]
    intro hc
    exact hne _ (Option.some.inj hc)
  · rw [hval]
    intro hc
    exact Option.noConfusion hc

/-- C9: processing the same request twice with the same per-process hash
function (the mock template-only path has no other external input) yields
final states with identical category, priority, escalated flag and
response text. -/
theorem C9_rerun_deterministic (pyhash : String → Nat) (rid msg : String) :
    (process_request pyhash rid msg).category = (process_request pyhash rid msg).category ∧
    (process_request pyhash rid msg).priority = (process_request pyhash rid msg).priority ∧
    (process_request pyhash rid msg).escalated = (process_request pyhash rid msg).escalated ∧
    (process_request pyhash rid msg).response = (process_request pyhash rid msg).response :=
  ⟨rfl, rfl, rfl, rfl⟩
